import Mathlib

/-!
# Verification of the `display_tools` Home Assistant integration

A shallow embedding, in Lean 4, of the pure logic of
`custom_components/display_tools/__init__.py` and
`custom_components/display_tools/const.py`:

* Python `dict` (string-keyed, insertion-ordered) is modelled as an
  association list with an overwriting insert (`dInsert`);
* `datetime` objects are modelled at second precision as a wall-clock count
  of seconds since 1970-01-01 (proleptic Gregorian) plus an optional
  fixed UTC offset in minutes (`PyDateTime`), with `fromisoformat` /
  `isoformat` implemented over a civil-calendar conversion;
* fallible host calls (translation backend, HTTP, image decoding, the
  weather service) are modelled as `Except` / `Option`-valued inputs;
* `json.loads` is modelled by an executable JSON reader (`jsonLoads`);
* PIL image operations are modelled by their effect on image dimensions.

Definitions are translated from the Python source; theorems at the end
settle the specification claims.
-/

namespace DisplayTools

/-! ## Constants from `const.py` -/

def DOMAIN : String := "display_tools"

def SENSOR_ENTITY_ID : String := "sensor." ++ DOMAIN

def FORECAST_DAILY_SENSOR : String := "sensor." ++ DOMAIN ++ "_forecast_daily"

def FORECAST_HOURLY_SENSOR : String := "sensor." ++ DOMAIN ++ "_forecast_hourly"

def TRANSLATION_CATEGORIES : List String :=
  ["title", "state", "entity", "entity_component", "exceptions", "config",
   "config_subentries", "config_panel", "options", "device_automation",
   "mfa_setup", "system_health", "application_credentials", "issues",
   "selector", "services"]

/-- Cover size presets (`COVER_SIZES` in `const.py`). -/
inductive CoverSize where
  | small
  | large
deriving DecidableEq

def COVER_SIZES : CoverSize → Nat × Nat
  | .small => (120, 120)
  | .large => (160, 160)

/-- Weather forecast types (`FORECAST_TYPES` in `const.py`). -/
inductive ForecastType where
  | daily
  | hourly
deriving DecidableEq

/-- Sensor chosen by `handle_get_forecasts` for a forecast type. -/
def sensorIdOf : ForecastType → String
  | .daily => FORECAST_DAILY_SENSOR
  | .hourly => FORECAST_HOURLY_SENSOR

/-! ## Python `dict` model

A string-keyed Python `dict` is modelled as an insertion-ordered
association list; `d[k] = v` keeps the position of an existing key and
appends new keys at the end, exactly like CPython. -/

abbrev PyDict (α : Type) := List (String × α)

/-- `k in d` for a Python dict. -/
def dHas {α : Type} : PyDict α → String → Bool
  | [], _ => false
  | p :: l, k => if p.1 = k then true else dHas l k

/-- `d.get(k)` / `d[k]` for a Python dict (first binding wins; a well-formed
dict has distinct keys, so there is at most one). -/
def dGet? {α : Type} : PyDict α → String → Option α
  | [], _ => none
  | p :: l, k => if p.1 = k then some p.2 else dGet? l k

/-- `d[k] = v` for a Python dict: overwrite in place, or append a new key. -/
def dInsert {α : Type} (l : PyDict α) (k : String) (v : α) : PyDict α :=
  if dHas l k then l.map (fun p => if p.1 = k then (k, v) else p) else l ++ [(k, v)]

theorem dGet?_dInsert_self {α : Type} (l : PyDict α) (k : String) (v : α) :
    dGet? (dInsert l k v) k = some v := by
  induction l with
  | nil => simp [dInsert, dHas, dGet?]
  | cons p l ih =>
    by_cases hp : p.1 = k
    · simp [dInsert, dHas, hp, dGet?]
    · by_cases hl : dHas l k
      · simpa [dInsert, dHas, hp, hl, dGet?] using ih
      · simpa [dInsert, dHas, hp, hl, dGet?] using ih

theorem dGet?_map_overwrite {α : Type} (l : PyDict α) (k k' : String) (v : α)
    (h : k ≠ k') :
    dGet? (l.map (fun p => if p.1 = k' then (k', v) else p)) k = dGet? l k := by
  induction l with
  | nil => simp [dGet?]
  | cons p l ih =>
    by_cases hp : p.1 = k'
    · simp [dGet?, hp, Ne.symm h, ih]
    · simp [dGet?, hp, ih]

theorem dGet?_append_single_ne {α : Type} (l : PyDict α) (k k' : String)
    (v : α) (h : k ≠ k') : dGet? (l ++ [(k', v)]) k = dGet? l k := by
  induction l with
  | nil => simp [dGet?, Ne.symm h]
  | cons p l ih => simp [dGet?, ih]

theorem dGet?_dInsert_ne {α : Type} (l : PyDict α) (k k' : String) (v : α)
    (h : k ≠ k') : dGet? (dInsert l k' v) k = dGet? l k := by
  unfold dInsert
  by_cases hl : dHas l k'
  · simp [hl, dGet?_map_overwrite _ _ _ _ h]
  · simp [hl, dGet?_append_single_ne _ _ _ _ h]

/-! ## `_filter_translations_by_keys` (`__init__.py` lines 175–196) -/

/-- One iteration of the loop body of `_filter_translations_by_keys`:
`if key in translations: filtered[key] = translations[key]
 else: filtered[key] = key`. -/
def filterStep (translations : PyDict String) (acc : PyDict String)
    (key : String) : PyDict String :=
  match dGet? translations key with
  | some v => dInsert acc key v
  | none => dInsert acc key key

/-- `_filter_translations_by_keys(translations, keys)`; `keys = none` models
Python `None`, and both `None` and `[]` are falsy, returning the source
mapping unchanged. -/
def filter_translations_by_keys (translations : PyDict String)
    (keys : Option (List String)) : PyDict String :=
  match keys with
  | none => translations
  | some [] => translations
  | some ks => ks.foldl (filterStep translations) []

theorem filterStep_eq (translations acc : PyDict String) (key : String) :
    filterStep translations acc key
      = dInsert acc key ((dGet? translations key).getD key) := by
  unfold filterStep
  cases dGet? translations key <;> rfl

theorem dGet?_filterFold (translations : PyDict String) (ks : List String)
    (acc : PyDict String) (k : String) :
    dGet? (ks.foldl (filterStep translations) acc) k
      = if k ∈ ks then some ((dGet? translations k).getD k) else dGet? acc k := by
  induction ks generalizing acc with
  | nil => simp
  | cons key ks ih =>
    rw [List.foldl_cons, ih]
    by_cases hmem : k ∈ ks
    · simp [hmem]
    · by_cases hk : k = key
      · subst hk
        simp [hmem, filterStep_eq, dGet?_dInsert_self]
      · simp [hmem, hk, filterStep_eq, dGet?_dInsert_ne _ _ _ _ hk]

/-! ## Python string helpers

Structural (kernel-evaluable) implementations of the `str` methods the
source uses: `split` with a one-character separator, `strip`, `rstrip('/')`,
`replace('Z', '+00:00')`, and a leading-`/` test. -/

/-- `str.split(sep)` over characters: `"".split(sep) == ['']`, empty pieces
between adjacent separators are kept. -/
def splitChars (sep : Char) : List Char → List (List Char)
  | [] => [[]]
  | c :: cs =>
    match splitChars sep cs with
    | chunk :: rest => if c = sep then [] :: chunk :: rest else (c :: chunk) :: rest
    | [] => [[]]

/-- `s.split(sep)` for a one-character separator. -/
def pySplit (sep : Char) (s : String) : List String :=
  (splitChars sep s.toList).map String.mk

/-- ASCII whitespace for `str.strip()`. -/
def isPySpace (c : Char) : Bool :=
  c = ' ' ∨ c = '\t' ∨ c = '\n' ∨ c = '\r' ∨ c = Char.ofNat 11 ∨ c = Char.ofNat 12

/-- `s.strip()`. -/
def pyStrip (s : String) : String :=
  String.mk (((s.toList.dropWhile isPySpace).reverse.dropWhile isPySpace).reverse)

/-- `s.rstrip('/')`. -/
def rstripSlash (s : String) : String :=
  String.mk ((s.toList.reverse.dropWhile (fun c => c = '/')).reverse)

/-- `s.replace('Z', '+00:00')` (every occurrence, as in Python). -/
def pyReplaceZ (s : String) : String :=
  String.mk (s.toList.foldr
    (fun c acc =>
      if c = 'Z' then '+' :: '0' :: '0' :: ':' :: '0' :: '0' :: acc else c :: acc)
    [])

/-- `s.startswith('/')`. -/
def startsWithSlash (s : String) : Bool :=
  match s.toList with
  | c :: _ => c = '/'
  | [] => false

/-! ## `datetime` model

Python `datetime` objects (the stdlib collaborator used by
`_filter_forecast_attributes`) are modelled at second precision.  A
`datetime` stores a wall-clock reading; we represent the wall clock as a
count of seconds since 1970-01-01 00:00:00 in the proleptic Gregorian
calendar, which is a bijective recoding of the (year, month, day, hour,
minute, second) fields used by Python.  `tz` holds the fixed UTC offset in
minutes of an aware datetime (`timezone.utc` is `some 0`), or `none` for a
naive datetime. -/

structure PyDateTime where
  wallSecs : Int
  tz : Option Int
deriving DecidableEq

/-- Proleptic-Gregorian leap year test. -/
def isLeapYear (y : Int) : Bool := (y % 4 == 0 && y % 100 != 0) || y % 400 == 0

def daysInMonth (y : Int) (m : Nat) : Nat :=
  if m = 2 then (if isLeapYear y then 29 else 28)
  else if m = 4 ∨ m = 6 ∨ m = 9 ∨ m = 11 then 30
  else 31

/-- Civil calendar date → days since 1970-01-01 (Gregorian). -/
def daysFromCivil (y : Int) (m d : Nat) : Int :=
  let yAdj : Int := if m ≤ 2 then y - 1 else y
  let era : Int := Int.fdiv yAdj 400
  let yoe : Nat := (yAdj - era * 400).toNat
  let mp : Nat := if m > 2 then m - 3 else m + 9
  let doy : Nat := (153 * mp + 2) / 5 + d - 1
  let doe : Nat := yoe * 365 + yoe / 4 - yoe / 100 + doy
  era * 146097 + (doe : Int) - 719468

/-- Days since 1970-01-01 → civil calendar date (Gregorian). -/
def civilFromDays (z0 : Int) : Int × Nat × Nat :=
  let z : Int := z0 + 719468
  let era : Int := Int.fdiv z 146097
  let doe : Nat := (z - era * 146097).toNat
  let yoe : Nat := (doe - doe / 1460 + doe / 36524 - doe / 146096) / 365
  let y : Int := (yoe : Int) + era * 400
  let doy : Nat := doe - (365 * yoe + yoe / 4 - yoe / 100)
  let mp : Nat := (5 * doy + 2) / 153
  let d : Nat := doy - (153 * mp + 2) / 5 + 1
  let m : Nat := if mp < 10 then mp + 3 else mp - 9
  (if m ≤ 2 then y + 1 else y, m, d)

def pad2 (n : Nat) : String := if n < 10 then "0" ++ toString n else toString n

def pad4 (n : Nat) : String :=
  if n < 10 then "000" ++ toString n
  else if n < 100 then "00" ++ toString n
  else if n < 1000 then "0" ++ toString n
  else toString n

/-- `datetime.isoformat()` without the offset suffix:
`YYYY-MM-DDTHH:MM:SS` rendered from the wall clock. -/
def isoformatNaive (wallSecs : Int) : String :=
  let days : Int := Int.fdiv wallSecs 86400
  let sod : Nat := (Int.fmod wallSecs 86400).toNat
  let ymd := civilFromDays days
  pad4 ymd.1.toNat ++ "-" ++ pad2 ymd.2.1 ++ "-" ++ pad2 ymd.2.2 ++ "T" ++
    pad2 (sod / 3600) ++ ":" ++ pad2 (sod % 3600 / 60) ++ ":" ++ pad2 (sod % 60)

/-- The `±HH:MM` fixed-offset suffix `isoformat` appends for an aware
datetime; empty for a naive one. -/
def tzSuffix : Option Int → String
  | none => ""
  | some off =>
      (if 0 ≤ off then "+" else "-") ++ pad2 (off.natAbs / 60) ++ ":" ++
        pad2 (off.natAbs % 60)

/-- `datetime.isoformat()` (second precision). -/
def isoformat (d : PyDateTime) : String := isoformatNaive d.wallSecs ++ tzSuffix d.tz

/-! ### `datetime.fromisoformat` (modelled subset)

The model accepts `YYYY-MM-DD`, optionally followed by a single separator
character and `HH[:MM[:SS[.digits]]]`, optionally followed by an offset
`±HH[:MM]` / `±HHMM`.  Fractional seconds are accepted and discarded
(second-precision model). -/

/-- Read exactly `n` ASCII digits, MSD first, accumulating their value. -/
def readDigits : Nat → Nat → List Char → Option (Nat × List Char)
  | 0, acc, cs => some (acc, cs)
  | n + 1, acc, c :: cs =>
      if c.isDigit then readDigits n (acc * 10 + (c.toNat - 48)) cs else none
  | _ + 1, _, [] => none

def expectChar (c : Char) : List Char → Option (List Char)
  | c' :: cs => if c' = c then some cs else none
  | [] => none

/-- Parse `HH[:MM[:SS[.digits]]]`. -/
def parseHMS (cs : List Char) : Option (Nat × Nat × Nat × List Char) := do
  let (hh, cs1) ← readDigits 2 0 cs
  match cs1 with
  | ':' :: cs2 => do
      let (mm, cs3) ← readDigits 2 0 cs2
      match cs3 with
      | ':' :: cs4 => do
          let (ss, cs5) ← readDigits 2 0 cs4
          match cs5 with
          | '.' :: cs6 =>
              let frac := cs6.takeWhile Char.isDigit
              if frac.isEmpty then none
              else some (hh, mm, ss, cs6.dropWhile Char.isDigit)
          | _ => some (hh, mm, ss, cs5)
      | _ => some (hh, mm, 0, cs3)
  | _ => some (hh, 0, 0, cs1)

/-- Parse the magnitude of a UTC offset: `HH[:MM]` or `HHMM`, in minutes. -/
def parseOffsetMag (cs : List Char) : Option (Int × List Char) := do
  let (hh, cs1) ← readDigits 2 0 cs
  if hh > 23 then none
  else
    match cs1 with
    | ':' :: cs2 => do
        let (mm, cs3) ← readDigits 2 0 cs2
        if mm > 59 then none else some (((hh * 60 + mm : Nat) : Int), cs3)
    | c :: _ =>
        if c.isDigit then do
          let (mm, cs3) ← readDigits 2 0 cs1
          if mm > 59 then none else some (((hh * 60 + mm : Nat) : Int), cs3)
        else some (((hh * 60 : Nat) : Int), cs1)
    | [] => some (((hh * 60 : Nat) : Int), [])

/-- Parse an optional signed UTC offset at the end of the timestamp. -/
def parseOffsetPart : List Char → Option (Option Int × List Char)
  | [] => some (none, [])
  | '+' :: cs => (parseOffsetMag cs).map (fun p => (some p.1, p.2))
  | '-' :: cs => (parseOffsetMag cs).map (fun p => (some (-p.1), p.2))
  | cs => some (none, cs)

/-- `datetime.fromisoformat` (modelled subset, second precision). -/
def fromisoformat (s : String) : Option PyDateTime := do
  let cs := s.toList
  let (y, cs1) ← readDigits 4 0 cs
  let cs2 ← expectChar '-' cs1
  let (mo, cs3) ← readDigits 2 0 cs2
  let cs4 ← expectChar '-' cs3
  let (d, cs5) ← readDigits 2 0 cs4
  if y < 1 ∨ mo < 1 ∨ mo > 12 ∨ d < 1 ∨ d > daysInMonth (y : Int) mo then none
  else
    match cs5 with
    | [] => some ⟨86400 * daysFromCivil (y : Int) mo d, none⟩
    | _sep :: cs6 => do
        let (hh, mm, ss, cs7) ← parseHMS cs6
        if hh > 23 ∨ mm > 59 ∨ ss > 59 then none
        else do
          let (off, cs8) ← parseOffsetPart cs7
          if cs8.isEmpty then
            some ⟨86400 * daysFromCivil (y : Int) mo d + 3600 * hh + 60 * mm + ss, off⟩
          else none

/-! ## `_filter_forecast_attributes` (`__init__.py` lines 292–347) -/

/-- A Python value found under the `"datetime"` key of a forecast entry:
a `datetime` object, a string, or some other value (carrying its `str()`
rendering and its Python truthiness). -/
inductive DtValue where
  | dt (d : PyDateTime)
  | str (s : String)
  | other (reprStr : String) (truthy : Bool)
deriving DecidableEq

/-- Python truthiness of a `DtValue` (`if dt:`): `datetime` objects are
always truthy; a string is truthy iff non-empty. -/
def dtTruthy : DtValue → Bool
  | .dt _ => true
  | .str s => s != ""
  | .other _ t => t

/-- The conversion applied by the code to a parsed/`datetime` value:
`if tzinfo is None: replace(tzinfo=utc) else: astimezone(utc)`.
`replace` keeps the wall clock and attaches UTC; `astimezone` shifts the
wall clock by the offset and attaches UTC. -/
def normalizeToUtc (d : PyDateTime) : PyDateTime :=
  match d.tz with
  | none => ⟨d.wallSecs, some 0⟩
  | some off => ⟨d.wallSecs - off * 60, some 0⟩

/-- The instant denoted by a datetime read per its own offset (naive read
as UTC), in seconds since the epoch. -/
def utcInstant (d : PyDateTime) : Int := d.wallSecs - 60 * (d.tz.getD 0)

/-- The `"datetime"` normalization block of `_filter_forecast_attributes`.
The argument is `forecast_item.get("datetime", "")`. -/
def normalizeDatetime (v : Option DtValue) : String :=
  let dt := v.getD (.str "")
  if dtTruthy dt then
    match dt with
    | .dt d => isoformat (normalizeToUtc d)
    | .str s =>
        match fromisoformat (pyReplaceZ s) with
        | some o => isoformat (normalizeToUtc o)
        | none => s
    | .other r _ => r
  else ""

/-- A forecast entry as passed to `_filter_forecast_attributes`; only the
three fields the function reads are modelled, each `Option` since
`.get` tolerates absence.  Temperatures are carried opaquely as rationals
(no arithmetic is performed on them). -/
structure ForecastItem where
  condition : Option String
  datetime : Option DtValue
  temperature : Option Rat
deriving DecidableEq

/-- The result dict of `_filter_forecast_attributes`: exactly the keys
`condition`, `datetime`, `temperature`. -/
structure FilteredForecast where
  condition : String
  datetime : String
  temperature : Rat
deriving DecidableEq

/-- `_filter_forecast_attributes(forecast_item)`. -/
def filter_forecast_attributes (item : ForecastItem) : FilteredForecast :=
  { condition := item.condition.getD "sunny"
    datetime := normalizeDatetime item.datetime
    temperature := item.temperature.getD 0 }

/-- A heterogeneous attribute value (string or number), for viewing the
result dict as Python key/value pairs. -/
inductive AttrVal where
  | s (v : String)
  | num (v : Rat)
deriving DecidableEq

/-- The result of `_filter_forecast_attributes` as the Python dict literal
it is built from. -/
def filteredToPairs (f : FilteredForecast) : List (String × AttrVal) :=
  [("condition", .s f.condition), ("datetime", .s f.datetime),
   ("temperature", .num f.temperature)]

/-! ## Grouping pass of `handle_get_translations_esphome`
(`__init__.py` lines 546–558) -/

/-- The key test and slot extraction done per key:
`parts = key.split('.')`; requires `len(parts) >= 2 and parts[0] == 'component'`;
the slot is `(parts[1], parts[-1])`. -/
def matchKey (key : String) : Option (String × String) :=
  match pySplit '.' key with
  | p0 :: p1 :: rest => if p0 = "component" then some (p1, rest.getLastD p1) else none
  | _ => none

/-- One iteration of the grouping loop:
`if component not in grouped: grouped[component] = {}` followed by
`grouped[component][final_key] = value`. -/
def groupStep (acc : PyDict (PyDict String)) (kv : String × String) :
    PyDict (PyDict String) :=
  match matchKey kv.1 with
  | some cf => dInsert acc cf.1 (dInsert ((dGet? acc cf.1).getD []) cf.2 kv.2)
  | none => acc

/-- The full grouping pass over the translations dict. -/
def groupTranslations (translations : PyDict String) : PyDict (PyDict String) :=
  translations.foldl groupStep []

/-- Two-level lookup in the grouped dict. -/
def lookup2 (g : PyDict (PyDict String)) (c f : String) : Option String :=
  (dGet? g c).bind (fun b => dGet? b f)

/-! ## `_get_base_url` (`__init__.py` lines 85–152) -/

/-- The host-provided URL candidates `_get_base_url` consults.
`configEntry = none` models no config entry; `some d` a config entry whose
`data.get(CONF_BASE_URL)` is `d` (`none` = key absent / `None`).
`getUrlResult = none` models `get_url(hass)` raising; likewise
`serverPort = none` models `hass.http.server_port` raising. -/
structure BaseUrlInputs where
  configEntry : Option (Option String)
  getUrlResult : Option String
  internalUrl : Option String
  externalUrl : Option String
  serverPort : Option Nat
deriving DecidableEq

/-- Python truthiness of an optional string (`None` and `""` are falsy). -/
def pyTruthy : Option String → Bool
  | none => false
  | some s => s != ""

/-- `_get_base_url(hass, config_entry)`, strategy by strategy. -/
def get_base_url (i : BaseUrlInputs) : String :=
  let userUrl : Option String := match i.configEntry with
    | some d => d
    | none => none
  if pyTruthy userUrl then rstripSlash (userUrl.getD "")
  else if pyTruthy i.getUrlResult then rstripSlash (i.getUrlResult.getD "")
  else if pyTruthy i.internalUrl then rstripSlash (i.internalUrl.getD "")
  else if pyTruthy i.externalUrl then rstripSlash (i.externalUrl.getD "")
  else
    match i.serverPort with
    | some port => "http://localhost:" ++ toString port
    | none => "http://localhost:8123"

/-- The candidate URLs in the documented priority order. -/
def urlCandidates (i : BaseUrlInputs) : List (Option String) :=
  [i.configEntry.join, i.getUrlResult, i.internalUrl, i.externalUrl]

/-- The first truthy (present and non-empty) candidate of a list. -/
def firstTruthy : List (Option String) → Option String
  | [] => none
  | o :: rest => if pyTruthy o then o else firstTruthy rest

/-! ## `_download_and_process_cover` (`__init__.py` lines 199–289) -/

/-- A PIL image, modelled by its dimensions and mode. -/
structure PILImage where
  width : Nat
  height : Nat
  mode : String
deriving DecidableEq

/-- `img.convert('RGB') if img.mode in ('RGBA', 'P')`. -/
def convertMode (img : PILImage) : PILImage :=
  if img.mode = "RGBA" ∨ img.mode = "P" then
    { width := img.width, height := img.height, mode := "RGB" }
  else img

/-- Dimensions produced by `img.thumbnail(target)`: shrink to fit the target
box preserving aspect ratio, never enlarging.  PIL computes the fitted edge
with float rounding; the model uses floor (at least 1).  No claim depends on
the exact fitted size, only on it fitting in the box. -/
def thumbnailDims (w h tw th : Nat) : Nat × Nat :=
  if tw ≥ w ∧ th ≥ h then (w, h)
  else if tw * h ≥ th * w then (max 1 ((th * w) / h), th)
  else (tw, max 1 ((tw * h) / w))

def thumbnailImg (img : PILImage) (target : Nat × Nat) : PILImage :=
  let wh := thumbnailDims img.width img.height target.1 target.2
  { width := wh.1, height := wh.2, mode := img.mode }

/-- The file written by the cover pipeline: the
`Image.new('RGB', target_size, (0, 0, 0))` canvas with the shrunken image
pasted at `((target[0]-w)//2, (target[1]-h)//2)`. -/
structure LetterboxedImage where
  width : Nat
  height : Nat
  pasteX : Int
  pasteY : Int
  innerWidth : Nat
  innerHeight : Nat
deriving DecidableEq

def letterbox (inner : PILImage) (target : Nat × Nat) : LetterboxedImage :=
  { width := target.1
    height := target.2
    pasteX := Int.fdiv ((target.1 : Int) - (inner.width : Int)) 2
    pasteY := Int.fdiv ((target.2 : Int) - (inner.height : Int)) 2
    innerWidth := inner.width
    innerHeight := inner.height }

/-- An entity state as read from `hass.states.get`. -/
structure EntityState where
  attributes : PyDict String
deriving DecidableEq

/-- The host-provided outcomes of each fallible step of
`_download_and_process_cover`: entity lookup, base URL inputs, the HTTP
status, image decoding, and the final `save` (modelled as atomic). -/
structure CoverWorld where
  entityState : Option EntityState
  baseUrl : BaseUrlInputs
  httpStatus : Nat
  decoded : Except String PILImage
  saveOk : Bool

/-- `_download_and_process_cover(hass, entity_id, size)`: the returned
boolean together with the file written (`none` when nothing is written). -/
def download_and_process_cover (w : CoverWorld) (size : CoverSize) :
    Bool × Option LetterboxedImage :=
  match w.entityState with
  | none => (false, none)
  | some st =>
    match dGet? st.attributes "entity_picture" with
    | none => (false, none)
    | some pic =>
      if pic = "" then (false, none)
      else
        let _imageUrl : String :=
          if startsWithSlash pic then get_base_url w.baseUrl ++ pic else pic
        if w.httpStatus ≠ 200 then (false, none)
        else
          match w.decoded with
          | .error _ => (false, none)
          | .ok img =>
            let img1 := convertMode img
            let target := COVER_SIZES size
            let img2 := thumbnailImg img1 target
            let out := letterbox img2 target
            if w.saveOk then (true, some out) else (false, none)

/-- Success of every step of the cover pipeline. -/
def coverStepsOk (w : CoverWorld) : Bool :=
  (match w.entityState with
   | none => false
   | some st =>
     match dGet? st.attributes "entity_picture" with
     | none => false
     | some pic => pic != "")
  && (w.httpStatus == 200)
  && (match w.decoded with | .ok _ => true | .error _ => false)
  && w.saveOk

/-! ## `json.loads` model

An executable reader for the JSON accepted by Python's `json.loads` with
default settings: `null` / `true` / `false`, numbers (plus `NaN`,
`Infinity`, `-Infinity`), strings with the standard escapes, arrays and
objects, with JSON whitespace.  Numeric tokens are kept as their lexeme
(no arithmetic is performed on decoded values).  Recursion is driven by a
fuel argument amply larger than the input length. -/

inductive Json where
  | null
  | bool (b : Bool)
  | str (s : String)
  | num (lexeme : String)
  | arr (items : List Json)
  | obj (members : List (String × Json))

/-- JSON whitespace skipping (space, tab, newline, carriage return). -/
def skipWs (cs : List Char) : List Char :=
  cs.dropWhile (fun c => c = ' ' ∨ c = '\t' ∨ c = '\n' ∨ c = '\r')

/-- Match a literal tail, returning the remaining input. -/
def stripLit : List Char → List Char → Option (List Char)
  | [], cs => some cs
  | l :: ls, c :: cs => if c = l then stripLit ls cs else none
  | _ :: _, [] => none

def hexVal? (c : Char) : Option Nat :=
  if c.isDigit then some (c.toNat - 48)
  else if 'a' ≤ c ∧ c ≤ 'f' then some (c.toNat - 87)
  else if 'A' ≤ c ∧ c ≤ 'F' then some (c.toNat - 55)
  else none

/-- Single-character escapes in JSON strings. -/
def escChar? (c : Char) : Option Char :=
  if c = '"' then some '"'
  else if c = '\\' then some '\\'
  else if c = '/' then some '/'
  else if c = 'b' then some (Char.ofNat 8)
  else if c = 'f' then some (Char.ofNat 12)
  else if c = 'n' then some '\n'
  else if c = 'r' then some '\r'
  else if c = 't' then some '\t'
  else none

/-- Read the body of a JSON string after the opening quote; strict mode
rejects raw control characters. -/
def parseJsonStringChars : Nat → List Char → Option (List Char × List Char)
  | 0, _ => none
  | _ + 1, [] => none
  | fuel + 1, c :: rest =>
    if c = '"' then some ([], rest)
    else if c = '\\' then
      match rest with
      | [] => none
      | e :: rest2 =>
        if e = 'u' then
          match rest2 with
          | h1 :: h2 :: h3 :: h4 :: rest3 => do
            let a ← hexVal? h1
            let b ← hexVal? h2
            let c' ← hexVal? h3
            let d ← hexVal? h4
            let code := a * 4096 + b * 256 + c' * 16 + d
            let (out, rem) ← parseJsonStringChars fuel rest3
            some (Char.ofNat code :: out, rem)
          | _ => none
        else do
          let ec ← escChar? e
          let (out, rem) ← parseJsonStringChars fuel rest2
          some (ec :: out, rem)
    else if c.toNat < 32 then none
    else do
      let (out, rem) ← parseJsonStringChars fuel rest
      some (c :: out, rem)

/-- Lex an optional fraction part `.digits`. -/
def lexFrac : List Char → Option (List Char × List Char)
  | '.' :: r =>
      let ds := r.takeWhile Char.isDigit
      if ds.isEmpty then none else some ('.' :: ds, r.dropWhile Char.isDigit)
  | cs => some ([], cs)

/-- Lex an optional exponent part `[eE][+-]?digits`. -/
def lexExp : List Char → Option (List Char × List Char)
  | c :: r =>
      if c = 'e' ∨ c = 'E' then
        let sr : List Char × List Char :=
          match r with
          | '+' :: rr => (['+'], rr)
          | '-' :: rr => (['-'], rr)
          | _ => ([], r)
        let ds := sr.2.takeWhile Char.isDigit
        if ds.isEmpty then none
        else some (c :: (sr.1 ++ ds), sr.2.dropWhile Char.isDigit)
      else some ([], c :: r)
  | [] => some ([], [])

/-- Lex a JSON number (RFC 8259 grammar: no leading zeros, mandatory digit
after `-`). -/
def lexNumber (cs : List Char) : Option (List Char × List Char) :=
  let sr : List Char × List Char :=
    match cs with
    | '-' :: r => (['-'], r)
    | _ => ([], cs)
  match sr.2 with
  | [] => none
  | c :: r =>
    if c = '0' then do
      let (fr, cs2) ← lexFrac r
      let (ex, cs3) ← lexExp cs2
      some (sr.1 ++ ['0'] ++ fr ++ ex, cs3)
    else if c.isDigit then
      let ds := sr.2.takeWhile Char.isDigit
      let csr := sr.2.dropWhile Char.isDigit
      do
        let (fr, cs2) ← lexFrac csr
        let (ex, cs3) ← lexExp cs2
        some (sr.1 ++ ds ++ fr ++ ex, cs3)
    else none

def infinityTail : List Char := ['n', 'f', 'i', 'n', 'i', 't', 'y']

mutual

def parseJsonValue : Nat → List Char → Option (Json × List Char)
  | 0, _ => none
  | fuel + 1, cs0 =>
    let cs := skipWs cs0
    match cs with
    | [] => none
    | c :: rest =>
      if c = '"' then
        (parseJsonStringChars fuel rest).map (fun p => (Json.str (String.mk p.1), p.2))
      else if c = '[' then parseArrayRest fuel rest
      else if c = '{' then parseObjectRest fuel rest
      else if c = 't' then
        (stripLit ['r', 'u', 'e'] rest).map (fun r => (Json.bool true, r))
      else if c = 'f' then
        (stripLit ['a', 'l', 's', 'e'] rest).map (fun r => (Json.bool false, r))
      else if c = 'n' then
        (stripLit ['u', 'l', 'l'] rest).map (fun r => (Json.null, r))
      else if c = 'N' then
        (stripLit ['a', 'N'] rest).map (fun r => (Json.num "NaN", r))
      else if c = 'I' then
        (stripLit infinityTail rest).map (fun r => (Json.num "Infinity", r))
      else if c = '-' then
        match rest with
        | 'I' :: r2 =>
            (stripLit infinityTail r2).map (fun r => (Json.num "-Infinity", r))
        | _ => (lexNumber (c :: rest)).map (fun p => (Json.num (String.mk p.1), p.2))
      else if c.isDigit then
        (lexNumber (c :: rest)).map (fun p => (Json.num (String.mk p.1), p.2))
      else none

def parseArrayRest : Nat → List Char → Option (Json × List Char)
  | 0, _ => none
  | fuel + 1, cs =>
    let cs1 := skipWs cs
    match cs1 with
    | ']' :: r => some (Json.arr [], r)
    | _ => do
      let (v, cs2) ← parseJsonValue fuel cs1
      parseArrayMore fuel [v] cs2

def parseArrayMore : Nat → List Json → List Char → Option (Json × List Char)
  | 0, _, _ => none
  | fuel + 1, acc, cs =>
    let cs1 := skipWs cs
    match cs1 with
    | ']' :: r => some (Json.arr acc.reverse, r)
    | ',' :: r => do
      let (v, cs2) ← parseJsonValue fuel r
      parseArrayMore fuel (v :: acc) cs2
    | _ => none

def parseObjectRest : Nat → List Char → Option (Json × List Char)
  | 0, _ => none
  | fuel + 1, cs =>
    let cs1 := skipWs cs
    match cs1 with
    | '}' :: r => some (Json.obj [], r)
    | '"' :: r => do
      let (kcs, cs2) ← parseJsonStringChars fuel r
      match skipWs cs2 with
      | ':' :: cs4 => do
        let (v, cs5) ← parseJsonValue fuel cs4
        parseObjectMore fuel [(String.mk kcs, v)] cs5
      | _ => none
    | _ => none

def parseObjectMore : Nat → List (String × Json) → List Char →
    Option (Json × List Char)
  | 0, _, _ => none
  | fuel + 1, acc, cs =>
    let cs1 := skipWs cs
    match cs1 with
    | '}' :: r => some (Json.obj acc.reverse, r)
    | ',' :: r =>
      match skipWs r with
      | '"' :: r2 => do
        let (kcs, cs3) ← parseJsonStringChars fuel r2
        match skipWs cs3 with
        | ':' :: cs5 => do
          let (v, cs6) ← parseJsonValue fuel cs5
          parseObjectMore fuel ((String.mk kcs, v) :: acc) cs6
        | _ => none
      | _ => none
    | _ => none

end

/-- `json.loads(s)`: parse one value, allow trailing whitespace, reject
trailing junk. -/
def jsonLoads (s : String) : Option Json :=
  let cs := s.toList
  match parseJsonValue (2 * cs.length + 8) cs with
  | some jr => if (skipWs jr.2).isEmpty then some jr.1 else none
  | none => none

/-! ## Keys processing of `handle_get_translations_esphome`
(`__init__.py` lines 499–536) -/

/-- An element of a raw `keys` list: a Python string, or any other value
carried by its `str()` rendering. -/
inductive PyItem where
  | str (s : String)
  | other (reprStr : String)

/-- The raw `keys` service-call argument: a list, a bare string, a non-list
non-string iterable (with its materialized elements), or a scalar. -/
inductive KeysRaw where
  | list (xs : List PyItem)
  | str (s : String)
  | iter (xs : List PyItem) (reprStr : String)
  | scalar (reprStr : String)

/-- The processed `keys` value: a JSON-decoded value, a list of strings, or
a list of raw items. -/
inductive KeysVal where
  | jsonVal (j : Json)
  | strList (l : List String)
  | itemList (xs : List PyItem)

/-- `[k.strip() for k in s.split(',') if k.strip()]`. -/
def splitStripDrop (s : String) : List String :=
  ((pySplit ',' s).filter (fun k => pyStrip k ≠ "")).map (fun k => pyStrip k)

/-- The keys-processing block of `handle_get_translations_esphome`. -/
def processKeys : Option KeysRaw → Option KeysVal
  | none => none
  | some (.list [single]) =>
    match single with
    | .str s =>
      match jsonLoads s with
      | some j => some (.jsonVal j)
      | none => some (.strList (splitStripDrop s))
    | .other r => some (.strList [r])
  | some (.list xs) => some (.itemList xs)
  | some (.str s) =>
    match jsonLoads s with
    | some j => some (.jsonVal j)
    | none => some (.strList (splitStripDrop s))
  | some (.iter xs _) => some (.itemList xs)
  | some (.scalar r) => some (.strList [r])

/-! ## Service handlers and their error boundaries

Each handler wraps its body in `try/except`.  In the embedding the fallible
collaborator call inside the `try` block is an `Except`-valued input (an
exception anywhere in the block propagates to the `except` clause, which is
the `.error` branch here), and the handler's outward effect is reified. -/

/-- A heterogeneous service-response value. -/
inductive RespVal where
  | s (v : String)
  | n (v : Int)
  | dict (v : PyDict String)
  | cats (v : PyDict (PyDict String))
deriving DecidableEq

/-- The outward effect of one service call: a returned response mapping, a
sensor-state publication (with optional `error` attribute), a forecast
publication, or nothing. -/
inductive ServiceEffect where
  | returned (resp : List (String × RespVal))
  | published (sensorId : String) (state : String) (errorAttr : Option String)
  | publishedForecasts (sensorId : String) (forecasts : List FilteredForecast)
  | noop
deriving DecidableEq

/-- Python truthiness of the processed keys list (`if keys:`). -/
def keysTruthy : Option (List String) → Bool
  | none => false
  | some l => !l.isEmpty

/-- `handle_get_raw_translations` (lines 436–461): `body` is the outcome of
its `try` block (the per-category fetch loop, whose successful result is
the accumulated non-empty category mappings). -/
def handle_get_raw_translations (language : String)
    (body : Except String (PyDict (PyDict String))) : List (String × RespVal) :=
  match body with
  | .ok result =>
      [("language", .s language), ("categories", .cats result),
       ("total_categories", .n result.length)]
  | .error e =>
      [("language", .s language), ("categories", .cats []), ("error", .s e)]

/-- `handle_get_translations` (lines 463–491): fetch, filter when `keys` is
truthy, return the response; an exception yields the error mapping. -/
def handle_get_translations (language category : String)
    (keys : Option (List String)) (fetch : Except String (PyDict String)) :
    List (String × RespVal) :=
  match fetch with
  | .ok translations =>
      let t := if keysTruthy keys then filter_translations_by_keys translations keys
               else translations
      [("language", .s language), ("category", .s category),
       ("translations", .dict t), ("total_translations", .n t.length)]
  | .error e =>
      [("language", .s language), ("category", .s category),
       ("translations", .dict []), ("error", .s e)]

/-- `handle_get_translations_esphome` (lines 493–619), after keys
processing: fetch, filter, group, persist and publish; an exception sets
the sentinel `"error"` state with an `error` attribute. -/
def handle_get_translations_esphome (language _category : String)
    (keys : Option (List String)) (fetch : Except String (PyDict String)) :
    ServiceEffect × PyDict (PyDict String) :=
  match fetch with
  | .ok translations =>
      let t := if keysTruthy keys then filter_translations_by_keys translations keys
               else translations
      let grouped := groupTranslations t
      (.published SENSOR_ENTITY_ID language none, grouped)
  | .error e => (.published SENSOR_ENTITY_ID "error" (some e), [])

/-- `handle_save_media_cover` (lines 621–637): the download result (or an
exception) is only logged; the handler publishes and returns nothing. -/
def handle_save_media_cover (body : Except String Bool) : ServiceEffect :=
  match body with
  | .ok _ => .noop
  | .error _ => .noop

/-- `handle_get_forecasts` (lines 640–732): `svc` is the outcome of the
`weather.get_forecasts` call, already projected onto the called entity
(`none` = falsy response or entity missing from it).  An empty or missing
forecast list logs and returns; otherwise the list is truncated to 12,
filtered and published; an exception sets the sentinel `"error"` state. -/
def handle_get_forecasts (_entityId : String) (ftype : ForecastType)
    (svc : Except String (Option (List ForecastItem))) : ServiceEffect :=
  match svc with
  | .error e => .published (sensorIdOf ftype) "error" (some e)
  | .ok extracted =>
    match extracted with
    | none => .noop
    | some forecastData =>
      if forecastData.isEmpty then .noop
      else
        .publishedForecasts (sensorIdOf ftype)
          ((forecastData.take 12).map filter_forecast_attributes)

/-! ## Claim theorems -/

/-- **C2**: for every source mapping and non-empty requested key list,
`_filter_translations_by_keys` returns a mapping whose domain is exactly
the requested keys, sending each key present in the source to its source
value and each absent key to the key string itself; an empty or absent key
list returns the source mapping verbatim. -/
theorem c2_filter_translations_by_keys (translations : PyDict String)
    (ks : List String) (k : String) (hne : ks ≠ []) :
    (dGet? (filter_translations_by_keys translations (some ks)) k
      = if k ∈ ks then some ((dGet? translations k).getD k) else none)
    ∧ filter_translations_by_keys translations none = translations
    ∧ filter_translations_by_keys translations (some []) = translations := by
  refine ⟨?_, rfl, rfl⟩
  match ks, hne with
  | k0 :: ks', _ =>
    show dGet? ((k0 :: ks').foldl (filterStep translations) []) k = _
    rw [dGet?_filterFold]
    simp [dGet?]

theorem c2_witness :
    (dGet? (filter_translations_by_keys [("a", "1")] (some ["a", "b"])) "b"
      = if "b" ∈ ["a", "b"] then some ((dGet? [("a", "1")] "b").getD "b") else none)
    ∧ filter_translations_by_keys [("a", "1")] none = [("a", "1")]
    ∧ filter_translations_by_keys [("a", "1")] (some []) = [("a", "1")] :=
  c2_filter_translations_by_keys [("a", "1")] ["a", "b"] "b" (by decide)

/-- **C9**: the result of `_filter_forecast_attributes` has exactly the
keys `condition`, `datetime`, `temperature`; a missing condition defaults
to `"sunny"`, a missing temperature to `0.0`, and a missing or empty
datetime yields the empty string. -/
theorem c9_filtered_keys_and_defaults (item : ForecastItem) :
    (filteredToPairs (filter_forecast_attributes item)).map Prod.fst
        = ["condition", "datetime", "temperature"]
    ∧ (item.condition = none → (filter_forecast_attributes item).condition = "sunny")
    ∧ (item.temperature = none → (filter_forecast_attributes item).temperature = 0)
    ∧ ((item.datetime = none ∨ item.datetime = some (DtValue.str "")) →
        (filter_forecast_attributes item).datetime = "") := by
  refine ⟨rfl, ?_, ?_, ?_⟩
  · intro h
    show item.condition.getD "sunny" = "sunny"
    rw [h]
    rfl
  · intro h
    show item.temperature.getD 0 = 0
    rw [h]
    rfl
  · intro h
    show normalizeDatetime item.datetime = ""
    rcases h with h | h <;> rw [h] <;> rfl

theorem c9_witness :
    (filteredToPairs (filter_forecast_attributes ⟨none, none, none⟩)).map Prod.fst
        = ["condition", "datetime", "temperature"]
    ∧ (filter_forecast_attributes ⟨none, none, none⟩).condition = "sunny"
    ∧ (filter_forecast_attributes ⟨none, none, none⟩).temperature = 0
    ∧ (filter_forecast_attributes ⟨none, none, none⟩).datetime = "" :=
  ⟨(c9_filtered_keys_and_defaults ⟨none, none, none⟩).1,
   (c9_filtered_keys_and_defaults ⟨none, none, none⟩).2.1 rfl,
   (c9_filtered_keys_and_defaults ⟨none, none, none⟩).2.2.1 rfl,
   (c9_filtered_keys_and_defaults ⟨none, none, none⟩).2.2.2 (Or.inl rfl)⟩

/-- **C4 (counterexample)**: on an empty forecast list the handler takes
the `if not forecast_data: return` early exit and publishes nothing, so no
filtered list (of length `min(12, 0) = 0`) is produced or published. -/
theorem c4_counterexample :
    ¬ ∃ l : List FilteredForecast,
        handle_get_forecasts "weather.home" ForecastType.daily (Except.ok (some []))
          = ServiceEffect.publishedForecasts (sensorIdOf ForecastType.daily) l := by
  intro h
  obtain ⟨l, hl⟩ := h
  simp [handle_get_forecasts] at hl

/-- **C4 (amended)**: for every *non-empty* forecast list returned by the
host weather service, `handle_get_forecasts` publishes the filtered list,
whose length is `min(12, input length)`; an empty list is treated as
missing data and nothing is published. -/
theorem c4_forecast_truncation (entityId : String) (ftype : ForecastType)
    (fd : List ForecastItem) (h : fd ≠ []) :
    handle_get_forecasts entityId ftype (Except.ok (some fd))
      = ServiceEffect.publishedForecasts (sensorIdOf ftype)
          ((fd.take 12).map filter_forecast_attributes)
    ∧ ((fd.take 12).map filter_forecast_attributes).length = min 12 fd.length := by
  constructor
  · match fd, h with
    | f :: fs, _ => rfl
  · simp [List.length_take]

theorem c4_witness :
    handle_get_forecasts "weather.home" ForecastType.daily
        (Except.ok (some (List.replicate 13 (⟨none, none, none⟩ : ForecastItem))))
      = ServiceEffect.publishedForecasts (sensorIdOf ForecastType.daily)
          (((List.replicate 13 (⟨none, none, none⟩ : ForecastItem)).take 12).map
            filter_forecast_attributes)
    ∧ (((List.replicate 13 (⟨none, none, none⟩ : ForecastItem)).take 12).map
          filter_forecast_attributes).length
        = min 12 (List.replicate 13 (⟨none, none, none⟩ : ForecastItem)).length :=
  c4_forecast_truncation "weather.home" ForecastType.daily _ (by decide)

/-- **C6**: a failure raised inside any of the five handlers is caught at
the handler boundary: `get_raw_translations` and `get_translations` return
a mapping with an `error` field, `get_translations_esphome` and
`get_forecasts` publish a sentinel `"error"` state with an `error`
attribute, and `save_media_cover` is a silent no-op; no exception
propagates to the host (the handler models are total functions). -/
theorem c6_error_boundaries (language category entityId e : String)
    (ftype : ForecastType) (keys : Option (List String)) (b : Bool) :
    handle_get_raw_translations language (.error e)
      = [("language", .s language), ("categories", .cats []), ("error", .s e)]
    ∧ handle_get_translations language category keys (.error e)
      = [("language", .s language), ("category", .s category),
         ("translations", .dict []), ("error", .s e)]
    ∧ handle_get_translations_esphome language category keys (.error e)
      = (.published SENSOR_ENTITY_ID "error" (some e), [])
    ∧ handle_get_forecasts entityId ftype (.error e)
      = .published (sensorIdOf ftype) "error" (some e)
    ∧ handle_save_media_cover (.error e) = .noop
    ∧ handle_save_media_cover (.ok b) = .noop :=
  ⟨rfl, rfl, rfl, rfl, rfl, rfl⟩

/-- **C7**: `_download_and_process_cover` returns `True` iff every step
(entity lookup, `entity_picture` lookup, download, decode, save)
succeeds; the output file is written iff it returns `True`, and nothing is
written when it returns `False`. -/
theorem c7_cover_failure_atomicity (w : CoverWorld) (size : CoverSize) :
    ((download_and_process_cover w size).1 = true ↔ coverStepsOk w = true)
    ∧ ((download_and_process_cover w size).2 = none
        ↔ (download_and_process_cover w size).1 = false)
    ∧ ((download_and_process_cover w size).2.isSome
        ↔ (download_and_process_cover w size).1 = true) := by
  rcases w with ⟨es, bu, hs, dec, sv⟩
  cases es with
  | none => simp [download_and_process_cover, coverStepsOk]
  | some st =>
    cases hpic : dGet? st.attributes "entity_picture" with
    | none => simp [download_and_process_cover, coverStepsOk, hpic]
    | some pic =>
      by_cases hp : pic = ""
      · simp [download_and_process_cover, coverStepsOk, hpic, hp]
      · by_cases hst : hs = 200
        · cases dec with
          | error e =>
            simp [download_and_process_cover, coverStepsOk, hpic, hp, hst]
          | ok img =>
            cases sv <;>
              simp [download_and_process_cover, coverStepsOk, hpic, hp, hst]
        · simp [download_and_process_cover, coverStepsOk, hpic, hp, hst]

/-- **C8**: whenever the cover pipeline writes an output image, that image
is the black letterbox canvas of exactly the requested target size
(`120×120` for `small`, `160×160` for `large`), with the shrunken input
pasted at the centering offsets, regardless of the input dimensions. -/
theorem c8_cover_dimensions (w : CoverWorld) (size : CoverSize)
    (out : LetterboxedImage)
    (h : (download_and_process_cover w size).2 = some out) :
    out.width = (COVER_SIZES size).1
    ∧ out.height = (COVER_SIZES size).2
    ∧ out.pasteX
        = Int.fdiv (((COVER_SIZES size).1 : Int) - (out.innerWidth : Int)) 2
    ∧ out.pasteY
        = Int.fdiv (((COVER_SIZES size).2 : Int) - (out.innerHeight : Int)) 2 := by
  rcases w with ⟨es, bu, hs, dec, sv⟩
  cases es with
  | none => simp [download_and_process_cover] at h
  | some st =>
    cases hpic : dGet? st.attributes "entity_picture" with
    | none => simp [download_and_process_cover, hpic] at h
    | some pic =>
      by_cases hp : pic = ""
      · simp [download_and_process_cover, hpic, hp] at h
      · by_cases hst : hs = 200
        · cases dec with
          | error e => simp [download_and_process_cover, hpic, hp, hst] at h
          | ok img =>
            cases sv with
            | false => simp [download_and_process_cover, hpic, hp, hst] at h
            | true =>
              simp [download_and_process_cover, hpic, hp, hst] at h
              subst h
              exact ⟨rfl, rfl, rfl, rfl⟩
        · simp [download_and_process_cover, hpic, hp, hst] at h

theorem c8_witness :
    ((120 : Nat) = (COVER_SIZES CoverSize.small).1)
    ∧ ((120 : Nat) = (COVER_SIZES CoverSize.small).2)
    ∧ ((0 : Int)
        = Int.fdiv (((COVER_SIZES CoverSize.small).1 : Int) - ((120 : Nat) : Int)) 2)
    ∧ ((40 : Int)
        = Int.fdiv (((COVER_SIZES CoverSize.small).2 : Int) - ((40 : Nat) : Int)) 2) :=
  c8_cover_dimensions
    ⟨some ⟨[("entity_picture", "http://example.com/cover.png")]⟩,
     ⟨none, none, none, none, none⟩, 200, .ok ⟨300, 100, "RGB"⟩, true⟩
    CoverSize.small ⟨120, 120, 0, 40, 120, 40⟩ rfl

theorem find?_append_or {α : Type} (l₁ l₂ : List α) (p : α → Bool) :
    (l₁ ++ l₂).find? p
      = match l₁.find? p with
        | some x => some x
        | none => l₂.find? p := by
  induction l₁ with
  | nil => simp
  | cons a l ih =>
    by_cases h : p a <;> simp [List.find?, h, ih]

theorem dGet?_getD_bucket (g : PyDict (PyDict String)) (c f : String) :
    dGet? ((dGet? g c).getD []) f = lookup2 g c f := by
  unfold lookup2
  cases dGet? g c with
  | none => simp [dGet?]
  | some b => simp

theorem lookup2_groupStep (g : PyDict (PyDict String)) (kv : String × String)
    (c f : String) :
    lookup2 (groupStep g kv) c f
      = if matchKey kv.1 = some (c, f) then some kv.2 else lookup2 g c f := by
  unfold groupStep
  cases hm : matchKey kv.1 with
  | none => simp [hm]
  | some cf =>
    obtain ⟨c', f'⟩ := cf
    show lookup2 (dInsert g c' (dInsert ((dGet? g c').getD []) f' kv.2)) c f
        = if some (c', f') = some (c, f) then some kv.2 else lookup2 g c f
    by_cases hc : c' = c
    · rw [hc]
      by_cases hf : f' = f
      · rw [hf, if_pos rfl]
        unfold lookup2
        rw [dGet?_dInsert_self]
        simp [dGet?_dInsert_self]
      · rw [if_neg (by simp [hf])]
        unfold lookup2
        rw [dGet?_dInsert_self]
        simp only [Option.some_bind]
        rw [dGet?_dInsert_ne _ _ _ _ (fun h => hf h.symm)]
        exact dGet?_getD_bucket g c f
    · rw [if_neg (by simp [hc])]
      unfold lookup2
      rw [dGet?_dInsert_ne _ _ _ _ (fun h => hc h.symm)]

theorem lookup2_groupFold (l : PyDict String) (g : PyDict (PyDict String))
    (c f : String) :
    lookup2 (l.foldl groupStep g) c f
      = match l.reverse.find? (fun kv => decide (matchKey kv.1 = some (c, f))) with
        | some kv => some kv.2
        | none => lookup2 g c f := by
  induction l generalizing g with
  | nil => simp
  | cons kv l ih =>
    rw [List.foldl_cons, ih, List.reverse_cons, find?_append_or]
    cases hfind : l.reverse.find? (fun kv => decide (matchKey kv.1 = some (c, f))) with
    | some x => rfl
    | none =>
      simp only [List.find?]
      rw [lookup2_groupStep]
      by_cases hm : matchKey kv.1 = some (c, f)
      · simp [hm]
      · simp [hm]

theorem groupFold_filter (l : PyDict String) (g : PyDict (PyDict String)) :
    l.foldl groupStep g
      = (l.filter (fun kv => (matchKey kv.1).isSome)).foldl groupStep g := by
  induction l generalizing g with
  | nil => rfl
  | cons kv l ih =>
    cases hm : matchKey kv.1 with
    | some cf =>
      rw [List.foldl_cons]
      rw [show (kv :: l).filter (fun kv => (matchKey kv.1).isSome)
            = kv :: l.filter (fun kv => (matchKey kv.1).isSome) by
          simp [List.filter, hm]]
      rw [List.foldl_cons, ih]
    | none =>
      have hstep : groupStep g kv = g := by
        unfold groupStep
        rw [hm]
      rw [List.foldl_cons, hstep]
      rw [show (kv :: l).filter (fun kv => (matchKey kv.1).isSome)
            = l.filter (fun kv => (matchKey kv.1).isSome) by
          simp [List.filter, hm]]
      exact ih g

/-- **C3 (counterexample)**: two matching keys can share a bucket and final
segment; the later one overwrites the earlier, so the earlier key is *not*
present with its original value, contradicting the claim as stated. -/
theorem c3_counterexample :
    lookup2 (groupTranslations
        [("component.a.x", "v1"), ("component.a.y.x", "v2")]) "a" "x"
      = some "v2"
    ∧ lookup2 (groupTranslations
        [("component.a.x", "v1"), ("component.a.y.x", "v2")]) "a" "x"
      ≠ some "v1" := by
  exact ⟨rfl, by decide⟩

/-- **C3 (amended)**: the grouping pass includes a slot in the grouped
output iff some key splits (on `.`) into at least two segments with first
segment `component`, second segment the bucket and last segment the entry;
the slot holds the value of the *last* such key in iteration order (later
keys overwrite earlier ones sharing a slot); all non-matching keys are
dropped without any error (they leave the output untouched). -/
theorem c3_grouping (translations : PyDict String) (c f : String) :
    (lookup2 (groupTranslations translations) c f
      = (translations.reverse.find?
          (fun kv => decide (matchKey kv.1 = some (c, f)))).map Prod.snd)
    ∧ ((lookup2 (groupTranslations translations) c f).isSome
        ↔ ∃ kv ∈ translations, matchKey kv.1 = some (c, f))
    ∧ groupTranslations translations
        = groupTranslations
            (translations.filter (fun kv => (matchKey kv.1).isSome)) := by
  have hmain : lookup2 (groupTranslations translations) c f
      = (translations.reverse.find?
          (fun kv => decide (matchKey kv.1 = some (c, f)))).map Prod.snd := by
    unfold groupTranslations
    rw [lookup2_groupFold]
    cases translations.reverse.find? (fun kv => decide (matchKey kv.1 = some (c, f))) with
    | none => rfl
    | some x => rfl
  refine ⟨hmain, ?_, groupFold_filter translations []⟩
  have hmap : ∀ (o : Option (String × String)), (o.map Prod.snd).isSome = o.isSome := by
    intro o
    cases o <;> rfl
  rw [hmain, hmap, List.find?_isSome]
  constructor
  · rintro ⟨kv, hmem, hp⟩
    exact ⟨kv, List.mem_reverse.mp hmem, of_decide_eq_true hp⟩
  · rintro ⟨kv, hmem, hp⟩
    exact ⟨kv, List.mem_reverse.mpr hmem, decide_eq_true hp⟩

theorem firstTruthy_cons (o : Option String) (l : List (Option String)) :
    firstTruthy (o :: l) = if pyTruthy o then o else firstTruthy l := rfl

/-- **C5**: `_get_base_url` returns the first non-empty candidate in the
priority order: user-configured URL, `get_url()` helper result,
`internal_url`, `external_url` (each right-stripped of trailing `/`), then
localhost with the detected server port, and finally the hardcoded
`http://localhost:8123` default. -/
theorem c5_base_url_priority (i : BaseUrlInputs) :
    get_base_url i
      = (match firstTruthy (urlCandidates i) with
        | some u => rstripSlash u
        | none =>
          match i.serverPort with
          | some port => "http://localhost:" ++ toString port
          | none => "http://localhost:8123") := by
  have hjoin : (match i.configEntry with
      | some d => d
      | none => (none : Option String)) = i.configEntry.join := by
    cases i.configEntry <;> rfl
  simp only [get_base_url]
  rw [hjoin]
  simp only [urlCandidates, firstTruthy_cons]
  by_cases h1 : pyTruthy i.configEntry.join
  · rw [if_pos h1, if_pos h1]
    cases hj : i.configEntry.join with
    | none => rw [hj] at h1; simp [pyTruthy] at h1
    | some s => rfl
  · rw [if_neg h1, if_neg h1]
    by_cases h2 : pyTruthy i.getUrlResult
    · rw [if_pos h2, if_pos h2]
      cases hj : i.getUrlResult with
      | none => rw [hj] at h2; simp [pyTruthy] at h2
      | some s => rfl
    · rw [if_neg h2, if_neg h2]
      by_cases h3 : pyTruthy i.internalUrl
      · rw [if_pos h3, if_pos h3]
        cases hj : i.internalUrl with
        | none => rw [hj] at h3; simp [pyTruthy] at h3
        | some s => rfl
      · rw [if_neg h3, if_neg h3]
        by_cases h4 : pyTruthy i.externalUrl
        · rw [if_pos h4, if_pos h4]
          cases hj : i.externalUrl with
          | none => rw [hj] at h4; simp [pyTruthy] at h4
          | some s => rfl
        · rw [if_neg h4, if_neg h4]
          rfl

/-- **C10**: in the ESPHome keys processing, a single-element list holding
a string (or a bare string) that is not valid JSON is split on commas,
each piece whitespace-stripped, empty pieces dropped; a string that is
valid JSON yields the JSON-decoded value instead. -/
theorem c10_esphome_keys_processing (s : String) :
    (jsonLoads s = none →
      processKeys (some (KeysRaw.list [PyItem.str s]))
          = some (KeysVal.strList
              (((pySplit ',' s).map pyStrip).filter (fun k => k ≠ "")))
      ∧ processKeys (some (KeysRaw.str s))
          = some (KeysVal.strList
              (((pySplit ',' s).map pyStrip).filter (fun k => k ≠ ""))))
    ∧ (∀ j : Json, jsonLoads s = some j →
      processKeys (some (KeysRaw.list [PyItem.str s])) = some (KeysVal.jsonVal j)
      ∧ processKeys (some (KeysRaw.str s)) = some (KeysVal.jsonVal j)) := by
  have hsplit : splitStripDrop s
      = ((pySplit ',' s).map pyStrip).filter (fun k => k ≠ "") := by
    unfold splitStripDrop
    induction pySplit ',' s with
    | nil => rfl
    | cons a l ih =>
      rw [List.map_cons, List.filter_cons, List.filter_cons]
      by_cases h : pyStrip a = ""
      · rw [if_neg (by simp [h]), if_neg (by simp [h])]
        exact ih
      · rw [if_pos (by simp [h]), if_pos (by simp [h])]
        rw [List.map_cons, ih]
  constructor
  · intro h
    constructor <;> simp [processKeys, h, hsplit]
  · intro j h
    constructor <;> simp [processKeys, h]

theorem c10_witness :
    processKeys (some (KeysRaw.list [PyItem.str "state.on, state.off"]))
        = some (KeysVal.strList
            (((pySplit ',' "state.on, state.off").map pyStrip).filter
              (fun k => k ≠ "")))
    ∧ processKeys (some (KeysRaw.str "[\"a\",\"b\"]"))
        = some (KeysVal.jsonVal (Json.arr [Json.str "a", Json.str "b"])) :=
  ⟨((c10_esphome_keys_processing "state.on, state.off").1 rfl).1,
   ((c10_esphome_keys_processing "[\"a\",\"b\"]").2
      (Json.arr [Json.str "a", Json.str "b"]) rfl).2⟩

/-- A string is a fixed-offset ISO-8601 timestamp iff it parses as an
offset-aware timestamp. -/
def isFixedOffsetIso (s : String) : Bool :=
  match fromisoformat s with
  | some d => d.tz.isSome
  | none => false

/-- **C1 (counterexample)**: a forecast entry whose `datetime` value is an
unparseable string is passed through unchanged, so the output is *not*
always a fixed-offset ISO-8601 string. -/
theorem c1_counterexample :
    (filter_forecast_attributes
        ⟨none, some (DtValue.str "not a timestamp"), none⟩).datetime
      = "not a timestamp"
    ∧ isFixedOffsetIso "not a timestamp" = false := ⟨rfl, rfl⟩

/-- **C1 (amended)**: whenever the `datetime` value is a `datetime`
object, a timezone-naive value is treated as UTC (same wall clock,
UTC offset attached) and a timezone-aware value is converted to UTC (same
instant, UTC offset), and the output is the fixed-offset ISO-8601
rendering of a UTC-aware timestamp; the same holds for string values that
parse as ISO timestamps (after `Z` → `+00:00`).  Unparseable strings are
kept verbatim. -/
theorem c1_timestamp_normalization (item : ForecastItem) :
    (∀ d : PyDateTime, item.datetime = some (DtValue.dt d) →
      ((d.tz = none →
          (filter_forecast_attributes item).datetime
            = isoformat ⟨d.wallSecs, some 0⟩)
       ∧ (∀ off : Int, d.tz = some off →
          (filter_forecast_attributes item).datetime
              = isoformat ⟨d.wallSecs - off * 60, some 0⟩
          ∧ utcInstant ⟨d.wallSecs - off * 60, some 0⟩ = utcInstant d)
       ∧ ∃ w : Int, (filter_forecast_attributes item).datetime
              = isoformatNaive w ++ "+00:00"))
    ∧ (∀ s : String, ∀ o : PyDateTime, item.datetime = some (DtValue.str s) →
        fromisoformat (pyReplaceZ s) = some o →
        (filter_forecast_attributes item).datetime = isoformat (normalizeToUtc o)
        ∧ (normalizeToUtc o).tz = some 0
        ∧ ∃ w : Int, (filter_forecast_attributes item).datetime
              = isoformatNaive w ++ "+00:00") := by
  constructor
  · intro d hd
    have hfd : (filter_forecast_attributes item).datetime
        = normalizeDatetime item.datetime := rfl
    rw [hd] at hfd
    have hnd : normalizeDatetime (some (DtValue.dt d))
        = isoformat (normalizeToUtc d) := rfl
    refine ⟨?_, ?_, ?_⟩
    · intro htz
      rw [hfd, hnd]
      unfold normalizeToUtc
      rw [htz]
    · intro off hoff
      constructor
      · rw [hfd, hnd]
        unfold normalizeToUtc
        rw [hoff]
      · unfold utcInstant
        rw [hoff]
        simp
        ring
    · cases htz : d.tz with
      | none =>
        refine ⟨d.wallSecs, ?_⟩
        rw [hfd, hnd]
        unfold normalizeToUtc
        rw [htz]
        rfl
      | some off =>
        refine ⟨d.wallSecs - off * 60, ?_⟩
        rw [hfd, hnd]
        unfold normalizeToUtc
        rw [htz]
        rfl
  · intro s o hs ho
    have hne : s ≠ "" := by
      intro h0
      rw [h0] at ho
      rw [show pyReplaceZ "" = "" from rfl] at ho
      rw [show fromisoformat "" = (none : Option PyDateTime) from rfl] at ho
      cases ho
    have hfd : (filter_forecast_attributes item).datetime
        = normalizeDatetime item.datetime := rfl
    rw [hs] at hfd
    have hnd : normalizeDatetime (some (DtValue.str s))
        = isoformat (normalizeToUtc o) := by
      simp only [normalizeDatetime, Option.getD_some]
      rw [show dtTruthy (DtValue.str s) = true from by simp [dtTruthy, hne]]
      simp [ho]
    refine ⟨by rw [hfd, hnd], ?_, ?_⟩
    · unfold normalizeToUtc
      cases o.tz <;> rfl
    · cases hotz : o.tz with
      | none =>
        refine ⟨o.wallSecs, ?_⟩
        rw [hfd, hnd]
        unfold normalizeToUtc
        rw [hotz]
        rfl
      | some off =>
        refine ⟨o.wallSecs - off * 60, ?_⟩
        rw [hfd, hnd]
        unfold normalizeToUtc
        rw [hotz]
        rfl

theorem c1_witness :
    ((filter_forecast_attributes
        ⟨none, some (DtValue.dt ⟨3600, some 120⟩), none⟩).datetime
      = isoformat ⟨3600 - 120 * 60, some 0⟩)
    ∧ utcInstant ⟨3600 - 120 * 60, some 0⟩ = utcInstant ⟨3600, some 120⟩
    ∧ ((filter_forecast_attributes
        ⟨none, some (DtValue.str "2024-05-01T12:30:00+02:00"), none⟩).datetime
      = isoformat (normalizeToUtc ⟨86400 * daysFromCivil 2024 5 1 + 45000, some 120⟩)) :=
  ⟨(((c1_timestamp_normalization
        ⟨none, some (DtValue.dt ⟨3600, some 120⟩), none⟩).1
      ⟨3600, some 120⟩ rfl).2.1 120 rfl).1,
   (((c1_timestamp_normalization
        ⟨none, some (DtValue.dt ⟨3600, some 120⟩), none⟩).1
      ⟨3600, some 120⟩ rfl).2.1 120 rfl).2,
   ((c1_timestamp_normalization
        ⟨none, some (DtValue.str "2024-05-01T12:30:00+02:00"), none⟩).2
      "2024-05-01T12:30:00+02:00"
      ⟨86400 * daysFromCivil 2024 5 1 + 45000, some 120⟩ rfl (by decide)).1⟩

end DisplayTools
